import Mathlib

/-!
Verification of the curve client rename transaction protocol
(`curvefs/src/client/client_operator.cpp`, class `RenameOperator`) and of the
in-memory inode storage (`curvefs/src/metaserver/inode_storage.cpp`).

The C++ methods are embedded as pure Lean functions.  Every collaborator call
(metaserver client, dentry cache manager, inode cache manager, mds client) is
represented by an oracle field of an `Env` record, and every step returns,
besides its status code, the trace of the calls it issued, so that statements
such as "exactly one prepare batch is submitted" become statements about the
returned trace.
-/

namespace CurveRename

/-- Metaserver status codes (subset of `MetaStatusCode` used by the client
and the inode storage). -/
inductive MetaStatusCode where
  | OK
  | NOT_FOUND
  | INODE_EXIST
  | PARAM_ERROR
  | UNKNOWN_ERROR
  deriving DecidableEq, Repr

/-- Cluster-manager (topology service) status codes. -/
inductive TopoStatusCode where
  | TOPO_OK
  | TOPO_INTERNAL_ERROR
  deriving DecidableEq, Repr

/-- Client-side error codes (subset of `CURVEFS_ERROR` used by the rename
path, with the spec's name `RPC_ERROR` for a failed metaserver RPC). -/
inductive CURVEFS_ERROR where
  | OK
  | INTERNAL
  | NOTEXIST
  | NOTEMPTY
  | RPC_ERROR
  deriving DecidableEq, Repr

/-- Modelled from the spec: the conversion `MetaStatusCodeToCurvefsErrCode`
is declared outside the files under src/.  Per spec section 4.1 step 1 a
failed metaserver lookup surfaces as `RPC_ERROR`, so the model maps
`MetaStatusCode::OK` to `OK` and every other metaserver status to
`RPC_ERROR`. -/
def MetaStatusCodeToCurvefsErrCode : MetaStatusCode → CURVEFS_ERROR
  | MetaStatusCode.OK => CURVEFS_ERROR.OK
  | _ => CURVEFS_ERROR.RPC_ERROR

/-- Directory-entry flag bits (`DentryFlag`), fixed by the curvefs proto:
`TYPE_FILE_FLAG = 1`, `DELETE_MARK_FLAG = 2`, `TRANSACTION_PREPARE_FLAG = 4`. -/
def TYPE_FILE_FLAG : Nat := 1

def DELETE_MARK_FLAG : Nat := 2

def TRANSACTION_PREPARE_FLAG : Nat := 4

/-- A directory entry (the fields of the curvefs `Dentry` message). -/
structure Dentry where
  fsid : Nat
  inodeid : Nat
  parentinodeid : Nat
  name : String
  txid : Nat
  flag : Nat
  deriving DecidableEq, Repr

/-- The rename operation record: the member state of `RenameOperator`
(constructor, lines 37-59 of `client_operator.cpp`). -/
structure RenameRecord where
  fsId : Nat
  parentId : Nat
  name : String
  newParentId : Nat
  newname : String
  srcPartitionId : Nat
  dstPartitionId : Nat
  srcTxId : Nat
  dstTxId : Nat
  oldInodeId : Nat
  srcDentry : Dentry
  dstDentry : Dentry
  deriving DecidableEq, Repr

/-- Collaborator oracles.  `txOracle fsId inodeId` answers
`MetaServerClient::GetTxId`; `getDentry parentId name` answers
`DentryCacheManager::GetDentry`; `listDentry inodeId limit` answers
`DentryCacheManager::ListDentry`; `prep n` is the metaserver status of the
n-th `MetaServerClient::PrepareRenameTx` submission of the current step;
`commit txIds` answers `MdsClient::CommitTx`; `getInode inodeId` is the
status of `InodeCacheManager::GetInode`; `unlink inodeId` the status of
`InodeWrapper::UnLinkLocked`. -/
structure Env where
  txOracle : Nat → Nat → MetaStatusCode × Nat × Nat
  getDentry : Nat → String → CURVEFS_ERROR × Dentry
  listDentry : Nat → Nat → CURVEFS_ERROR × List Dentry
  prep : Nat → MetaStatusCode
  commit : List (Nat × Nat) → TopoStatusCode
  getInode : Nat → CURVEFS_ERROR
  unlink : Nat → CURVEFS_ERROR

/-- `RenameOperator::GetTxId()` (lines 93-106): resolve
(partitionId, txId) for the source parent, then for the destination parent,
aborting on the first failure.  Returns the status, the updated record and
the list of (fsId, inodeId) transaction-id lookups performed. -/
def getTxIdStep (env : Env) (r : RenameRecord) :
    CURVEFS_ERROR × RenameRecord × List (Nat × Nat) :=
  let a := env.txOracle r.fsId r.parentId
  let e1 := MetaStatusCodeToCurvefsErrCode a.1
  if e1 ≠ CURVEFS_ERROR.OK then (e1, r, [(r.fsId, r.parentId)])
  else
    let r1 := { r with srcPartitionId := a.2.1, srcTxId := a.2.2 }
    let b := env.txOracle r.fsId r.newParentId
    let e2 := MetaStatusCodeToCurvefsErrCode b.1
    if e2 ≠ CURVEFS_ERROR.OK then
      (e2, r1, [(r.fsId, r.parentId), (r.fsId, r.newParentId)])
    else
      (CURVEFS_ERROR.OK, { r1 with dstPartitionId := b.2.1, dstTxId := b.2.2 },
        [(r.fsId, r.parentId), (r.fsId, r.newParentId)])

/-- `RenameOperator::CheckOverwrite()` (lines 109-123): a file-typed
destination may always be overwritten; otherwise list the destination
directory with limit 1 and refuse with `NOTEMPTY` when a child shows up.
Returns the status and the list of (inodeId, limit) listing calls. -/
def checkOverwrite (env : Env) (dst : Dentry) :
    CURVEFS_ERROR × List (Nat × Nat) :=
  if dst.flag &&& TYPE_FILE_FLAG ≠ 0 then (CURVEFS_ERROR.OK, [])
  else
    let res := env.listDentry dst.inodeid 1
    if res.1 = CURVEFS_ERROR.OK ∧ res.2 ≠ [] then
      (CURVEFS_ERROR.NOTEMPTY, [(dst.inodeid, 1)])
    else (res.1, [(dst.inodeid, 1)])

/-- `RenameOperator::Precheck()` (lines 128-145): the source dentry must
exist; an existing destination records `oldInodeId` and runs the overwrite
check.  Returns the status, the updated record, the dentry lookups
performed and the listing calls performed. -/
def precheck (env : Env) (r : RenameRecord) :
    CURVEFS_ERROR × RenameRecord × List (Nat × String) × List (Nat × Nat) :=
  let s := env.getDentry r.parentId r.name
  if s.1 ≠ CURVEFS_ERROR.OK then (s.1, r, [(r.parentId, r.name)], [])
  else
    let r1 := { r with srcDentry := s.2 }
    let d := env.getDentry r.newParentId r.newname
    if d.1 = CURVEFS_ERROR.NOTEXIST then
      (CURVEFS_ERROR.OK, r1,
        [(r.parentId, r.name), (r.newParentId, r.newname)], [])
    else if d.1 = CURVEFS_ERROR.OK then
      let r2 := { r1 with dstDentry := d.2, oldInodeId := d.2.inodeid }
      let c := checkOverwrite env d.2
      (c.1, r2, [(r.parentId, r.name), (r.newParentId, r.newname)], c.2)
    else
      (d.1, r1, [(r.parentId, r.name), (r.newParentId, r.newname)], [])

/-- The staged source tombstone built by `RenameOperator::PrepareTx()`
(lines 158-162): a copy of the source dentry with `txid = srcTxId + 1` and
flags OR'd with `DELETE_MARK_FLAG` and `TRANSACTION_PREPARE_FLAG`. -/
def stagedTombstone (r : RenameRecord) : Dentry :=
  { r.srcDentry with
    txid := r.srcTxId + 1,
    flag := r.srcDentry.flag ||| DELETE_MARK_FLAG ||| TRANSACTION_PREPARE_FLAG }

/-- The staged destination entry built by `RenameOperator::PrepareTx()`
(lines 164-169): a copy of the source dentry re-parented to
(`newParentId`, `newname`) with `txid = dstTxId + 1` and flags OR'd with
`TRANSACTION_PREPARE_FLAG`. -/
def stagedNewDentry (r : RenameRecord) : Dentry :=
  { r.srcDentry with
    parentinodeid := r.newParentId,
    name := r.newname,
    txid := r.dstTxId + 1,
    flag := r.srcDentry.flag ||| TRANSACTION_PREPARE_FLAG }

/-- `RenameOperator::PrepareTx()` (lines 157-188): same partition submits
one batch holding both staged dentries; different partitions submit the
tombstone first and the new entry second, the second only after the first
succeeded.  `env.prep n` is the metaserver status of the n-th submission.
Returns the status and the list of submitted batches. -/
def prepareTx (env : Env) (r : RenameRecord) :
    CURVEFS_ERROR × List (List Dentry) :=
  let d := stagedTombstone r
  let nd := stagedNewDentry r
  if r.srcPartitionId = r.dstPartitionId then
    (MetaStatusCodeToCurvefsErrCode (env.prep 0), [[d, nd]])
  else
    let rc0 := MetaStatusCodeToCurvefsErrCode (env.prep 0)
    if rc0 = CURVEFS_ERROR.OK then
      (MetaStatusCodeToCurvefsErrCode (env.prep 1), [[d], [nd]])
    else (rc0, [[d]])

/-- `RenameOperator::CommitTx()` (lines 190-210): build one
(partitionId, txId+1) pair for the source partition, a second one for the
destination partition only when it differs, submit the batch to the mds
client, and map a non-`TOPO_OK` answer to `INTERNAL`.  Returns the status
and the submitted batch. -/
def commitTx (env : Env) (r : RenameRecord) :
    CURVEFS_ERROR × List (Nat × Nat) :=
  let txIds := (r.srcPartitionId, r.srcTxId + 1) ::
    (if r.srcPartitionId ≠ r.dstPartitionId then
      [(r.dstPartitionId, r.dstTxId + 1)] else [])
  if env.commit txIds = TopoStatusCode.TOPO_OK then (CURVEFS_ERROR.OK, txIds)
  else (CURVEFS_ERROR.INTERNAL, txIds)

/-- `RenameOperator::UnlinkOldInode()` (lines 212-228): nothing to do when
no destination entry was overwritten; otherwise fetch the inode handle and
unlink it, swallowing every failure.  Returns the list of inode lookups and
the list of unlink invocations (the function itself returns void). -/
def unlinkOldInode (env : Env) (r : RenameRecord) : List Nat × List Nat :=
  if r.oldInodeId = 0 then ([], [])
  else if env.getInode r.oldInodeId ≠ CURVEFS_ERROR.OK then
    ([r.oldInodeId], [])
  else ([r.oldInodeId], [r.oldInodeId])

/-- The trace of collaborator calls issued during one rename. -/
structure Trace where
  txLookups : List (Nat × Nat)
  gets : List (Nat × String)
  lists : List (Nat × Nat)
  prepares : List (List Dentry)
  commits : List (List (Nat × Nat))
  inodeGets : List Nat
  unlinks : List Nat
  deriving DecidableEq, Repr

/-- The empty trace. -/
def Trace.nil : Trace := ⟨[], [], [], [], [], [], []⟩

/-- Modelled from the spec: the caller that sequences the six rename steps
(spec section 4.1) lives outside the files under src/.  Per the spec it runs
GetTxId, Precheck, PrepareTx and CommitTx in order, aborting the whole
rename on the first failing step, and only after a successful commit runs
the best-effort UnlinkOldInode; the cache-only step 6 issues no collaborator
RPC and is omitted.  Returns the rename outcome and the full call trace. -/
def renameFlow (env : Env) (r0 : RenameRecord) : CURVEFS_ERROR × Trace :=
  let g := getTxIdStep env r0
  if g.1 ≠ CURVEFS_ERROR.OK then
    (g.1, { Trace.nil with txLookups := g.2.2 })
  else
    let p := precheck env g.2.1
    if p.1 ≠ CURVEFS_ERROR.OK then
      (p.1, { Trace.nil with
        txLookups := g.2.2, gets := p.2.2.1, lists := p.2.2.2 })
    else
      let pre := prepareTx env p.2.1
      if pre.1 ≠ CURVEFS_ERROR.OK then
        (pre.1, { Trace.nil with
          txLookups := g.2.2, gets := p.2.2.1, lists := p.2.2.2,
          prepares := pre.2 })
      else
        let c := commitTx env p.2.1
        if c.1 ≠ CURVEFS_ERROR.OK then
          (c.1, { Trace.nil with
            txLookups := g.2.2, gets := p.2.2.1, lists := p.2.2.2,
            prepares := pre.2, commits := [c.2] })
        else
          let u := unlinkOldInode env p.2.1
          (CURVEFS_ERROR.OK,
            { txLookups := g.2.2, gets := p.2.2.1, lists := p.2.2.2,
              prepares := pre.2, commits := [c.2],
              inodeGets := u.1, unlinks := u.2 })

/-! ## In-memory inode storage (`curvefs/src/metaserver/inode_storage.cpp`) -/

/-- The key of the inode map: `InodeKey(inode)` is built from the inode's
filesystem id and inode id. -/
structure InodeKey where
  fsId : Nat
  inodeId : Nat
  deriving DecidableEq, Repr

/-- An inode, reduced to its key fields plus the link count (the only
payload the rename path touches); further payload fields would be carried
along unchanged exactly like `nlink`. -/
structure Inode where
  fsid : Nat
  inodeid : Nat
  nlink : Nat
  deriving DecidableEq, Repr

/-- `InodeKey(inode)`. -/
def inodeKey (i : Inode) : InodeKey := ⟨i.fsid, i.inodeid⟩

/-- The stored map `inodeMap_`, as an association list keyed by
`InodeKey`. -/
abbrev InodeMap := List (InodeKey × Inode)

/-- Key membership in the stored map (`inodeMap_.find(key) != end()`). -/
def InodeMap.containsKey (m : InodeMap) (k : InodeKey) : Bool :=
  m.any fun p => p.1 = k

/-- `MemoryInodeStorage::Insert` (lines 30-38): `emplace` fails on a
present key and the method answers `INODE_EXIST` leaving the map as it was;
otherwise the inode is stored under its key. -/
def msInsert (m : InodeMap) (i : Inode) : MetaStatusCode × InodeMap :=
  if m.containsKey (inodeKey i) then (MetaStatusCode.INODE_EXIST, m)
  else (MetaStatusCode.OK, (inodeKey i, i) :: m)

/-- `MemoryInodeStorage::Update` (lines 71-79): a missing key answers
`NOT_FOUND` leaving the map as it was; otherwise the stored inode under the
key is overwritten. -/
def msUpdate (m : InodeMap) (i : Inode) : MetaStatusCode × InodeMap :=
  if m.containsKey (inodeKey i) then
    (MetaStatusCode.OK,
      m.map fun p => if p.1 = inodeKey i then (p.1, i) else p)
  else (MetaStatusCode.NOT_FOUND, m)

/-! ## Helper lemmas and concrete fixtures -/

/-- The status-code conversion answers `OK` exactly on `OK`. -/
theorem conv_eq_ok_iff (rc : MetaStatusCode) :
    MetaStatusCodeToCurvefsErrCode rc = CURVEFS_ERROR.OK ↔
      rc = MetaStatusCode.OK := by
  cases rc <;> simp [MetaStatusCodeToCurvefsErrCode]

/-- Every non-`OK` metaserver status converts to `RPC_ERROR`. -/
theorem conv_ne_ok (rc : MetaStatusCode) (h : rc ≠ MetaStatusCode.OK) :
    MetaStatusCodeToCurvefsErrCode rc = CURVEFS_ERROR.RPC_ERROR := by
  cases rc <;> simp_all [MetaStatusCodeToCurvefsErrCode]

/-- A sample source dentry. -/
def sampleDentry : Dentry :=
  { fsid := 1, inodeid := 100, parentinodeid := 2, name := "foo",
    txid := 10, flag := 0 }

/-- A freshly constructed rename record (all resolved fields zero, as the
`RenameOperator` constructor initializes them). -/
def freshRecord : RenameRecord :=
  { fsId := 1, parentId := 2, name := "foo", newParentId := 3,
    newname := "bar", srcPartitionId := 0, dstPartitionId := 0,
    srcTxId := 0, dstTxId := 0, oldInodeId := 0,
    srcDentry := sampleDentry, dstDentry := sampleDentry }

/-- A record whose resolved source and destination partitions coincide. -/
def samePartRecord : RenameRecord :=
  { freshRecord with
    srcPartitionId := 7, dstPartitionId := 7, srcTxId := 10, dstTxId := 10 }

/-- A record whose resolved source and destination partitions differ. -/
def crossPartRecord : RenameRecord :=
  { freshRecord with
    srcPartitionId := 7, dstPartitionId := 8, srcTxId := 5, dstTxId := 8 }

/-- A record holding a non-zero overwritten-inode id. -/
def overwroteRecord : RenameRecord :=
  { samePartRecord with oldInodeId := 55 }

/-- An environment where every collaborator call succeeds; the destination
lookup reports absence, so the rename is a plain rename-to-new-name. -/
def okEnv : Env :=
  { txOracle := fun _ inodeId => (MetaStatusCode.OK, 7, 10 + inodeId),
    getDentry := fun p n =>
      if p = 2 ∧ n = "foo" then (CURVEFS_ERROR.OK, sampleDentry)
      else (CURVEFS_ERROR.NOTEXIST, sampleDentry),
    listDentry := fun _ _ => (CURVEFS_ERROR.OK, []),
    prep := fun _ => MetaStatusCode.OK,
    commit := fun _ => TopoStatusCode.TOPO_OK,
    getInode := fun _ => CURVEFS_ERROR.OK,
    unlink := fun _ => CURVEFS_ERROR.OK }

/-- `okEnv` with failing inode lookup and failing unlink. -/
def badUnlinkEnv : Env :=
  { okEnv with
    getInode := fun _ => CURVEFS_ERROR.INTERNAL,
    unlink := fun _ => CURVEFS_ERROR.INTERNAL }

/-- `okEnv` whose second prepare submission is rejected. -/
def secondPrepFailEnv : Env :=
  { okEnv with
    prep := fun n =>
      if n = 0 then MetaStatusCode.OK else MetaStatusCode.UNKNOWN_ERROR }

/-- A destination dentry that is a directory (file-type bit clear). -/
def dstDirDentry : Dentry :=
  { fsid := 1, inodeid := 200, parentinodeid := 3, name := "bar",
    txid := 20, flag := 0 }

/-- A child entry living inside `dstDirDentry`. -/
def childDentry : Dentry :=
  { fsid := 1, inodeid := 300, parentinodeid := 200, name := "c",
    txid := 20, flag := 1 }

/-- An environment where the destination exists as a directory holding one
child. -/
def dirOverwriteEnv : Env :=
  { okEnv with
    getDentry := fun p n =>
      if p = 3 ∧ n = "bar" then (CURVEFS_ERROR.OK, dstDirDentry)
      else (CURVEFS_ERROR.OK, sampleDentry),
    listDentry := fun _ _ => (CURVEFS_ERROR.OK, [childDentry]) }

/-- `dirOverwriteEnv` whose child listing itself fails. -/
def listFailEnv : Env :=
  { dirOverwriteEnv with
    listDentry := fun _ _ => (CURVEFS_ERROR.INTERNAL, []) }

/-- An environment where the source dentry lookup reports absence. -/
def noSrcEnv : Env :=
  { okEnv with
    getDentry := fun _ _ => (CURVEFS_ERROR.NOTEXIST, sampleDentry) }

/-! ## Claim theorems -/

/-- C1: when the resolved source and destination partition ids are equal,
`PrepareTx` issues exactly one prepare submission whose batch holds exactly
the source tombstone followed by the new destination entry; when they
differ, the first submission holds only the tombstone and a second
submission, holding only the new destination entry, is issued exactly when
the first one succeeded. -/
theorem prepareTx_submission_structure (env : Env) (r : RenameRecord) :
    (r.srcPartitionId = r.dstPartitionId →
      (prepareTx env r).2 = [[stagedTombstone r, stagedNewDentry r]]) ∧
    (r.srcPartitionId ≠ r.dstPartitionId →
      (prepareTx env r).2 =
        if env.prep 0 = MetaStatusCode.OK then
          [[stagedTombstone r], [stagedNewDentry r]]
        else [[stagedTombstone r]]) := by
  constructor
  · intro h
    simp [prepareTx, h]
  · intro h
    simp only [prepareTx, if_neg h]
    rcases em (env.prep 0 = MetaStatusCode.OK) with h0 | h0
    · simp [h0, conv_eq_ok_iff]
    · simp [if_neg h0, (conv_eq_ok_iff (env.prep 0)).not.mpr h0, h0]

/-- Witness for C1 at a concrete same-partition record and environment. -/
theorem prepareTx_submission_structure_witness :
    samePartRecord.srcPartitionId = samePartRecord.dstPartitionId ∧
    (prepareTx okEnv samePartRecord).2 =
      [[stagedTombstone samePartRecord, stagedNewDentry samePartRecord]] :=
  ⟨rfl, (prepareTx_submission_structure okEnv samePartRecord).1 rfl⟩

/-- C2: the staged tombstone is the source dentry with `txid = srcTxId + 1`
and flags OR'd with `DELETE_MARK_FLAG` and `TRANSACTION_PREPARE_FLAG`, all
other fields unchanged; the staged new entry is the source dentry with
parent id `newParentId`, name `newname`, `txid = dstTxId + 1` and flags
OR'd with `TRANSACTION_PREPARE_FLAG`, all other fields unchanged. -/
theorem staged_dentry_fields (r : RenameRecord) :
    (stagedTombstone r).txid = r.srcTxId + 1 ∧
    (stagedTombstone r).flag =
      r.srcDentry.flag ||| DELETE_MARK_FLAG ||| TRANSACTION_PREPARE_FLAG ∧
    (stagedTombstone r).fsid = r.srcDentry.fsid ∧
    (stagedTombstone r).inodeid = r.srcDentry.inodeid ∧
    (stagedTombstone r).parentinodeid = r.srcDentry.parentinodeid ∧
    (stagedTombstone r).name = r.srcDentry.name ∧
    (stagedNewDentry r).parentinodeid = r.newParentId ∧
    (stagedNewDentry r).name = r.newname ∧
    (stagedNewDentry r).txid = r.dstTxId + 1 ∧
    (stagedNewDentry r).flag =
      r.srcDentry.flag ||| TRANSACTION_PREPARE_FLAG ∧
    (stagedNewDentry r).fsid = r.srcDentry.fsid ∧
    (stagedNewDentry r).inodeid = r.srcDentry.inodeid :=
  ⟨rfl, rfl, rfl, rfl, rfl, rfl, rfl, rfl, rfl, rfl, rfl, rfl⟩

/-- C3: the commit batch is exactly one (partitionId, txId) pair per
distinct partition touched — always `(srcPartitionId, srcTxId + 1)`, plus
`(dstPartitionId, dstTxId + 1)` exactly when the partitions differ — and
`CommitTx` answers `OK` when the cluster manager accepts the batch and
`INTERNAL` otherwise. -/
theorem commitTx_batch_and_status (env : Env) (r : RenameRecord) :
    commitTx env r =
      ((if env.commit ((r.srcPartitionId, r.srcTxId + 1) ::
          (if r.srcPartitionId ≠ r.dstPartitionId then
            [(r.dstPartitionId, r.dstTxId + 1)] else [])) =
            TopoStatusCode.TOPO_OK
        then CURVEFS_ERROR.OK else CURVEFS_ERROR.INTERNAL),
        (r.srcPartitionId, r.srcTxId + 1) ::
          (if r.srcPartitionId ≠ r.dstPartitionId then
            [(r.dstPartitionId, r.dstTxId + 1)] else [])) := by
  simp only [commitTx, ne_eq, ite_not]
  split <;> split <;> rfl

/-- C7: the transaction-id resolution succeeds exactly when both parent
lookups succeed, and any lookup failure surfaces as `RPC_ERROR`. -/
theorem getTxId_both_lookups (env : Env) (r : RenameRecord) :
    ((getTxIdStep env r).1 = CURVEFS_ERROR.OK ↔
      (env.txOracle r.fsId r.parentId).1 = MetaStatusCode.OK ∧
      (env.txOracle r.fsId r.newParentId).1 = MetaStatusCode.OK) ∧
    ((env.txOracle r.fsId r.parentId).1 ≠ MetaStatusCode.OK ∨
      (env.txOracle r.fsId r.newParentId).1 ≠ MetaStatusCode.OK →
      (getTxIdStep env r).1 = CURVEFS_ERROR.RPC_ERROR) := by
  unfold getTxIdStep
  rcases em ((env.txOracle r.fsId r.parentId).1 = MetaStatusCode.OK) with
    h1 | h1
  · rcases em ((env.txOracle r.fsId r.newParentId).1 = MetaStatusCode.OK) with
      h2 | h2
    · simp [h1, h2, MetaStatusCodeToCurvefsErrCode]
    · simp [h1, h2, MetaStatusCodeToCurvefsErrCode, conv_ne_ok _ h2,
        (conv_eq_ok_iff _).not.mpr h2]
  · simp [h1, conv_ne_ok _ h1, (conv_eq_ok_iff _).not.mpr h1,
      MetaStatusCodeToCurvefsErrCode]

/-- Witness for C7 at a concrete record and environment with both lookups
succeeding. -/
theorem getTxId_both_lookups_witness :
    (getTxIdStep okEnv freshRecord).1 = CURVEFS_ERROR.OK :=
  ((getTxId_both_lookups okEnv freshRecord).1).mpr ⟨rfl, rfl⟩

/-- C10: inserting an inode whose key is already stored answers
`INODE_EXIST` and leaves the map unchanged; updating an inode whose key is
absent answers `NOT_FOUND` and leaves the map unchanged. -/
theorem inodeStorage_no_overwrite_no_create (m : InodeMap) (i : Inode) :
    (m.containsKey (inodeKey i) = true →
      msInsert m i = (MetaStatusCode.INODE_EXIST, m)) ∧
    (m.containsKey (inodeKey i) = false →
      msUpdate m i = (MetaStatusCode.NOT_FOUND, m)) := by
  constructor <;> intro h <;> simp [msInsert, msUpdate, h]

/-- Witness for C10: a present key rejects Insert, an absent key rejects
Update, on a concrete one-entry map. -/
theorem inodeStorage_no_overwrite_no_create_witness :
    msInsert [(⟨1, 2⟩, ⟨1, 2, 1⟩)] ⟨1, 2, 9⟩ =
      (MetaStatusCode.INODE_EXIST, [(⟨1, 2⟩, ⟨1, 2, 1⟩)]) ∧
    msUpdate [(⟨1, 2⟩, ⟨1, 2, 1⟩)] ⟨1, 3, 9⟩ =
      (MetaStatusCode.NOT_FOUND, [(⟨1, 2⟩, ⟨1, 2, 1⟩)]) :=
  ⟨(inodeStorage_no_overwrite_no_create [(⟨1, 2⟩, ⟨1, 2, 1⟩)] ⟨1, 2, 9⟩).1
      (by decide),
    (inodeStorage_no_overwrite_no_create [(⟨1, 2⟩, ⟨1, 2, 1⟩)] ⟨1, 3, 9⟩).2
      (by decide)⟩

/-- C6: in a cross-partition rename where the tombstone submission succeeds
and the destination-entry submission fails, `PrepareTx` answers the second
submission's (converted) failure, and the full submission trace is exactly
the two batches — no further submission and no compensating call to the
source partition. -/
theorem prepareTx_cross_second_failure (env : Env) (r : RenameRecord)
    (hp : r.srcPartitionId ≠ r.dstPartitionId)
    (h0 : env.prep 0 = MetaStatusCode.OK)
    (h1 : env.prep 1 ≠ MetaStatusCode.OK) :
    (prepareTx env r).1 = MetaStatusCodeToCurvefsErrCode (env.prep 1) ∧
    (prepareTx env r).1 ≠ CURVEFS_ERROR.OK ∧
    (prepareTx env r).2 = [[stagedTombstone r], [stagedNewDentry r]] := by
  have hc : MetaStatusCodeToCurvefsErrCode (env.prep 1) ≠ CURVEFS_ERROR.OK :=
    (conv_eq_ok_iff (env.prep 1)).not.mpr h1
  refine ⟨?_, ?_, ?_⟩ <;>
    simp [prepareTx, hp, h0, hc, MetaStatusCodeToCurvefsErrCode]

/-- Witness for C6 at a concrete cross-partition record and an environment
whose second submission is rejected. -/
theorem prepareTx_cross_second_failure_witness :
    (prepareTx secondPrepFailEnv crossPartRecord).1 = CURVEFS_ERROR.RPC_ERROR ∧
    (prepareTx secondPrepFailEnv crossPartRecord).2 =
      [[stagedTombstone crossPartRecord], [stagedNewDentry crossPartRecord]] := by
  have h := prepareTx_cross_second_failure secondPrepFailEnv crossPartRecord
    (by decide) rfl (by decide)
  exact ⟨h.1, h.2.2⟩

/-- `getTxIdStep` only consults the transaction-id oracle. -/
theorem getTxIdStep_env_congr (e1 e2 : Env)
    (h : e1.txOracle = e2.txOracle) (r : RenameRecord) :
    getTxIdStep e1 r = getTxIdStep e2 r := by
  simp [getTxIdStep, h]

/-- `checkOverwrite` only consults the listing oracle. -/
theorem checkOverwrite_env_congr (e1 e2 : Env)
    (h : e1.listDentry = e2.listDentry) (d : Dentry) :
    checkOverwrite e1 d = checkOverwrite e2 d := by
  simp [checkOverwrite, h]

/-- `precheck` only consults the dentry lookup and listing oracles. -/
theorem precheck_env_congr (e1 e2 : Env)
    (hg : e1.getDentry = e2.getDentry)
    (hl : e1.listDentry = e2.listDentry) (r : RenameRecord) :
    precheck e1 r = precheck e2 r := by
  simp [precheck, hg, checkOverwrite_env_congr e1 e2 hl]

/-- `prepareTx` only consults the prepare oracle. -/
theorem prepareTx_env_congr (e1 e2 : Env)
    (h : e1.prep = e2.prep) (r : RenameRecord) :
    prepareTx e1 r = prepareTx e2 r := by
  simp [prepareTx, h]

/-- `commitTx` only consults the commit oracle. -/
theorem commitTx_env_congr (e1 e2 : Env)
    (h : e1.commit = e2.commit) (r : RenameRecord) :
    commitTx e1 r = commitTx e2 r := by
  simp [commitTx, h]

/-- C8: `UnlinkOldInode` does nothing when no destination inode was
displaced; with a displaced inode it performs the inode lookup and invokes
unlink exactly when the lookup succeeded; and no outcome of the inode
lookup or of the unlink ever reaches the rename result — the rename outcome
is the same under any inode-lookup and unlink oracles. -/
theorem unlinkOldInode_never_propagates (env : Env) (r : RenameRecord) :
    (r.oldInodeId = 0 → unlinkOldInode env r = ([], [])) ∧
    (r.oldInodeId ≠ 0 →
      (unlinkOldInode env r).1 = [r.oldInodeId] ∧
      (unlinkOldInode env r).2 =
        (if env.getInode r.oldInodeId = CURVEFS_ERROR.OK then
          [r.oldInodeId] else [])) ∧
    (∀ e2 : Env, env.txOracle = e2.txOracle → env.getDentry = e2.getDentry →
      env.listDentry = e2.listDentry → env.prep = e2.prep →
      env.commit = e2.commit →
      ∀ r0 : RenameRecord, (renameFlow env r0).1 = (renameFlow e2 r0).1) := by
  refine ⟨?_, ?_, ?_⟩
  · intro h
    simp [unlinkOldInode, h]
  · intro h
    rcases em (env.getInode r.oldInodeId = CURVEFS_ERROR.OK) with hg | hg <;>
      simp [unlinkOldInode, h, hg]
  · intro e2 h1 h2 h3 h4 h5 r0
    have hg : ∀ r1, getTxIdStep env r1 = getTxIdStep e2 r1 :=
      getTxIdStep_env_congr env e2 h1
    have hp : ∀ r1, precheck env r1 = precheck e2 r1 :=
      precheck_env_congr env e2 h2 h3
    have hpr : ∀ r1, prepareTx env r1 = prepareTx e2 r1 :=
      prepareTx_env_congr env e2 h4
    have hco : ∀ r1, commitTx env r1 = commitTx e2 r1 :=
      commitTx_env_congr env e2 h5
    simp only [renameFlow, hg, hp, hpr, hco]
    split <;> try rfl
    split <;> try rfl
    split <;> try rfl
    split <;> rfl

/-- Witness for C8: a concrete displaced inode is looked up but not
unlinked under a failing lookup, and the rename outcome is unchanged when
the inode-lookup and unlink oracles are replaced by failing ones. -/
theorem unlinkOldInode_never_propagates_witness :
    (unlinkOldInode badUnlinkEnv overwroteRecord).1 = [55] ∧
    (unlinkOldInode badUnlinkEnv overwroteRecord).2 = [] ∧
    (renameFlow okEnv freshRecord).1 = (renameFlow badUnlinkEnv freshRecord).1 := by
  have h := unlinkOldInode_never_propagates badUnlinkEnv overwroteRecord
  have h2 := h.2.1 (by decide)
  refine ⟨h2.1, ?_, ?_⟩
  · rw [h2.2]
    rfl
  · exact (unlinkOldInode_never_propagates okEnv overwroteRecord).2.2
      badUnlinkEnv rfl rfl rfl rfl rfl freshRecord

/-- C4: when the source dentry lookup reports absence, the precheck fails
with `NOTEXIST`, the destination lookup is not performed, `oldInodeId` is
unchanged (it stays 0), and the whole rename issues no prepare, commit,
inode lookup or unlink call beyond the two transaction-id lookups. -/
theorem precheck_source_missing (env : Env) (r : RenameRecord)
    (h : (env.getDentry r.parentId r.name).1 = CURVEFS_ERROR.NOTEXIST)
    (t1 : (env.txOracle r.fsId r.parentId).1 = MetaStatusCode.OK)
    (t2 : (env.txOracle r.fsId r.newParentId).1 = MetaStatusCode.OK) :
    (precheck env r).1 = CURVEFS_ERROR.NOTEXIST ∧
    (precheck env r).2.2.1 = [(r.parentId, r.name)] ∧
    (precheck env r).2.2.2 = [] ∧
    (precheck env r).2.1.oldInodeId = r.oldInodeId ∧
    (renameFlow env r).1 = CURVEFS_ERROR.NOTEXIST ∧
    (renameFlow env r).2.txLookups =
      [(r.fsId, r.parentId), (r.fsId, r.newParentId)] ∧
    (renameFlow env r).2.gets = [(r.parentId, r.name)] ∧
    (renameFlow env r).2.prepares = [] ∧
    (renameFlow env r).2.commits = [] ∧
    (renameFlow env r).2.inodeGets = [] ∧
    (renameFlow env r).2.unlinks = [] := by
  refine ⟨?_, ?_, ?_, ?_, ?_, ?_, ?_, ?_, ?_, ?_, ?_⟩ <;>
    simp [renameFlow, getTxIdStep, precheck, Trace.nil, h, t1, t2,
      MetaStatusCodeToCurvefsErrCode]

/-- Witness for C4 at a concrete record and an environment whose source
lookup reports absence. -/
theorem precheck_source_missing_witness :
    (renameFlow noSrcEnv freshRecord).1 = CURVEFS_ERROR.NOTEXIST ∧
    (renameFlow noSrcEnv freshRecord).2.prepares = [] ∧
    (renameFlow noSrcEnv freshRecord).2.commits = [] := by
  have h := precheck_source_missing noSrcEnv freshRecord rfl rfl rfl
  exact ⟨h.2.2.2.2.1, h.2.2.2.2.2.2.2.1, h.2.2.2.2.2.2.2.2.1⟩

/-- C5: with an existing destination, `oldInodeId` records the destination
inode id; a file-typed destination passes the overwrite check with no
listing; a directory destination is listed with limit 1, a successful
non-empty listing fails with `NOTEMPTY`, a successful empty listing passes;
and in the `NOTEMPTY` case the rename issues no prepare or commit call. -/
theorem precheck_overwrite_rules (env : Env) (r : RenameRecord)
    (hs : (env.getDentry r.parentId r.name).1 = CURVEFS_ERROR.OK)
    (hd : (env.getDentry r.newParentId r.newname).1 = CURVEFS_ERROR.OK) :
    (precheck env r).2.1.oldInodeId =
      (env.getDentry r.newParentId r.newname).2.inodeid ∧
    ((env.getDentry r.newParentId r.newname).2.flag &&& TYPE_FILE_FLAG ≠ 0 →
      (precheck env r).1 = CURVEFS_ERROR.OK ∧
      (precheck env r).2.2.2 = []) ∧
    ((env.getDentry r.newParentId r.newname).2.flag &&& TYPE_FILE_FLAG = 0 →
      (precheck env r).2.2.2 =
        [((env.getDentry r.newParentId r.newname).2.inodeid, 1)] ∧
      ((env.listDentry
          (env.getDentry r.newParentId r.newname).2.inodeid 1).1 =
          CURVEFS_ERROR.OK →
        ((env.listDentry
            (env.getDentry r.newParentId r.newname).2.inodeid 1).2 ≠ [] →
          (precheck env r).1 = CURVEFS_ERROR.NOTEMPTY) ∧
        ((env.listDentry
            (env.getDentry r.newParentId r.newname).2.inodeid 1).2 = [] →
          (precheck env r).1 = CURVEFS_ERROR.OK))) ∧
    ((env.getDentry r.newParentId r.newname).2.flag &&& TYPE_FILE_FLAG = 0 →
      (env.listDentry
        (env.getDentry r.newParentId r.newname).2.inodeid 1).1 =
        CURVEFS_ERROR.OK →
      (env.listDentry
        (env.getDentry r.newParentId r.newname).2.inodeid 1).2 ≠ [] →
      (env.txOracle r.fsId r.parentId).1 = MetaStatusCode.OK →
      (env.txOracle r.fsId r.newParentId).1 = MetaStatusCode.OK →
      (renameFlow env r).1 = CURVEFS_ERROR.NOTEMPTY ∧
      (renameFlow env r).2.prepares = [] ∧
      (renameFlow env r).2.commits = []) := by
  have hne : (env.getDentry r.newParentId r.newname).1 ≠
      CURVEFS_ERROR.NOTEXIST := by
    rw [hd]
    decide
  refine ⟨?_, ?_, ?_, ?_⟩
  · simp [precheck, hs, hd, hne]
  · intro hf
    constructor <;> simp [precheck, checkOverwrite, hs, hd, hne, hf]
  · intro hf
    refine ⟨?_, ?_⟩
    · simp [precheck, checkOverwrite, hs, hd, hne, hf]
      split <;> rfl
    · intro hl
      constructor <;> intro hlst <;>
        simp [precheck, checkOverwrite, hs, hd, hne, hf, hl, hlst]
  · intro hf hl hlst t1 t2
    refine ⟨?_, ?_, ?_⟩ <;>
      simp [renameFlow, getTxIdStep, precheck, checkOverwrite, Trace.nil,
        hs, hd, hne, hf, hl, hlst, t1, t2, MetaStatusCodeToCurvefsErrCode]

/-- Witness for C5 at a concrete record and an environment where the
destination is a directory with one child. -/
theorem precheck_overwrite_rules_witness :
    (precheck dirOverwriteEnv freshRecord).2.1.oldInodeId = 200 ∧
    (precheck dirOverwriteEnv freshRecord).1 = CURVEFS_ERROR.NOTEMPTY ∧
    (renameFlow dirOverwriteEnv freshRecord).2.prepares = [] ∧
    (renameFlow dirOverwriteEnv freshRecord).2.commits = [] := by
  have h := precheck_overwrite_rules dirOverwriteEnv freshRecord rfl rfl
  have hflow := h.2.2.2 rfl rfl (by decide) rfl rfl
  have hne := (h.2.2.1 rfl).2 rfl
  exact ⟨h.1, hne.1 (by decide), hflow.2.1, hflow.2.2⟩

/-- C9: when the destination is a directory and listing its children fails,
the overwrite check and the precheck answer that listing error verbatim,
and the rename aborts with it, issuing no prepare or commit call. -/
theorem checkOverwrite_list_error (env : Env) (r : RenameRecord)
    (hs : (env.getDentry r.parentId r.name).1 = CURVEFS_ERROR.OK)
    (hd : (env.getDentry r.newParentId r.newname).1 = CURVEFS_ERROR.OK)
    (hf : (env.getDentry r.newParentId r.newname).2.flag &&&
      TYPE_FILE_FLAG = 0)
    (hl : (env.listDentry
      (env.getDentry r.newParentId r.newname).2.inodeid 1).1 ≠
      CURVEFS_ERROR.OK) :
    (checkOverwrite env (env.getDentry r.newParentId r.newname).2).1 =
      (env.listDentry
        (env.getDentry r.newParentId r.newname).2.inodeid 1).1 ∧
    (precheck env r).1 =
      (env.listDentry
        (env.getDentry r.newParentId r.newname).2.inodeid 1).1 ∧
    ((env.txOracle r.fsId r.parentId).1 = MetaStatusCode.OK →
      (env.txOracle r.fsId r.newParentId).1 = MetaStatusCode.OK →
      (renameFlow env r).1 =
        (env.listDentry
          (env.getDentry r.newParentId r.newname).2.inodeid 1).1 ∧
      (renameFlow env r).2.prepares = [] ∧
      (renameFlow env r).2.commits = []) := by
  have hne : (env.getDentry r.newParentId r.newname).1 ≠
      CURVEFS_ERROR.NOTEXIST := by
    rw [hd]
    decide
  refine ⟨?_, ?_, ?_⟩
  · simp [checkOverwrite, hf, hl]
  · simp [precheck, checkOverwrite, hs, hd, hne, hf, hl]
  · intro t1 t2
    refine ⟨?_, ?_, ?_⟩ <;>
      simp [renameFlow, getTxIdStep, precheck, checkOverwrite, Trace.nil,
        hs, hd, hne, hf, hl, t1, t2, MetaStatusCodeToCurvefsErrCode]

/-- Witness for C9 at a concrete record and an environment whose child
listing fails with `INTERNAL`. -/
theorem checkOverwrite_list_error_witness :
    (precheck listFailEnv freshRecord).1 = CURVEFS_ERROR.INTERNAL ∧
    (renameFlow listFailEnv freshRecord).1 = CURVEFS_ERROR.INTERNAL ∧
    (renameFlow listFailEnv freshRecord).2.prepares = [] := by
  have h := checkOverwrite_list_error listFailEnv freshRecord rfl rfl rfl
    (by decide)
  have hflow := h.2.2 rfl rfl
  exact ⟨h.2.1, hflow.1, hflow.2.1⟩

end CurveRename
